import Mathlib

/-!
Verification of the grantd-io Privilege Graph Resolution & Change-Diff Engine.

Shallow embedding of the engine code:
  * `infer_role_type`       — apps/api/src/routers/objects.py, lines 145-178
  * `sinfer_role_type`      — apps/api/src/services/sync/service.py, lines 56-79
  * `generate_sql_for_change`, `generateSnowflakeSql`, `generateDatabricksSql`
                            — apps/api/src/services/sql_generator.py
  * `previewRoleSql` and its diff loops
                            — apps/api/src/routers/objects.py, lines 1352-1502
  * `traverseRoles` / `get_user_access` aggregation
                            — apps/api/src/routers/objects.py, lines 703-910

Python-specific semantics are modelled explicitly: optional (nullable) values
are `Option`, string truthiness is "not None and not empty", dict indexing of
an absent key is an error (`Option`/`Except` results), and f-string rendering
of `None` produces the text "None".
-/

namespace Grantd

/-- Python string truthiness for an optional string: `None` and `""` are falsy. -/
def truthy : Option String → Bool
  | none => false
  | some s => !(s == "")

/-- Python `x or default` for an optional string (`None` and `""` fall through). -/
def pyOr (x : Option String) (default : String) : String :=
  match x with
  | none => default
  | some s => if s == "" then default else s

/-- Python f-string rendering of a possibly-`None` string value. -/
def pyStr : Option String → String
  | none => "None"
  | some s => s

/-- Python `str.upper()` (character-wise ASCII upper-casing, as a kernel-computable
map over the character list; the data fed to it — object types, platform tags —
is ASCII). -/
def pyUpper (s : String) : String :=
  String.mk (s.data.map Char.toUpper)

/-- Code-point lexicographic comparison of character lists (Python `str < str`). -/
def charsLt : List Char → List Char → Bool
  | [], [] => false
  | [], _ :: _ => true
  | _ :: _, [] => false
  | a :: as, b :: bs =>
    if a.toNat < b.toNat then true
    else if b.toNat < a.toNat then false
    else charsLt as bs

/-- Python string `<` (code-point lexicographic), kernel-computable. -/
def pyLt (a b : String) : Bool :=
  charsLt a.data b.data

/-! ## RoleTypeClassifier (objects.py lines 103-178, sync/service.py lines 56-79) -/

/-- RoleType enum from objects.py: inferred role type based on configuration patterns. -/
inductive RoleType where
  | functional
  | business
  | hybrid
deriving DecidableEq, Repr

/-- Embedding of objects.py `infer_role_type` (lines 145-178): classify a role
from whether it holds direct data grants, its user-assignment count and its
parent-role count; returns the type together with the human-readable reason. -/
def infer_role_type (has_data_grants : Bool) (user_assignment_count : Nat)
    (parent_role_count : Nat) : RoleType × String :=
  let is_functional_pattern := has_data_grants && (user_assignment_count == 0)
  let is_business_pattern :=
    decide (parent_role_count > 0) && decide (user_assignment_count > 0) && !has_data_grants
  if is_functional_pattern && !is_business_pattern then
    (RoleType.functional, "Direct data grants, no user assignments")
  else if is_business_pattern && !is_functional_pattern then
    (RoleType.business,
      "Inherits from " ++ toString parent_role_count ++ " role(s), assigned to "
        ++ toString user_assignment_count ++ " user(s)")
  else if has_data_grants
      && (decide (user_assignment_count > 0) || decide (parent_role_count > 0)) then
    (RoleType.hybrid, "Mix of direct grants and role inheritance/user assignments")
  else
    (RoleType.business, "No direct data grants")

/-- Embedding of sync/service.py `_infer_role_type` (lines 56-79): same branch
structure as objects.py `infer_role_type` but returning only the label string. -/
def sinfer_role_type (has_data_grants : Bool) (user_assignment_count : Nat)
    (parent_role_count : Nat) : String :=
  let is_functional_pattern := has_data_grants && (user_assignment_count == 0)
  let is_business_pattern :=
    decide (parent_role_count > 0) && decide (user_assignment_count > 0) && !has_data_grants
  if is_functional_pattern && !is_business_pattern then "functional"
  else if is_business_pattern && !is_functional_pattern then "business"
  else if has_data_grants
      && (decide (user_assignment_count > 0) || decide (parent_role_count > 0)) then "hybrid"
  else "business"

/-- String label of a RoleType (the `str, Enum` values in objects.py). -/
def RoleType.label : RoleType → String
  | .functional => "functional"
  | .business => "business"
  | .hybrid => "hybrid"

/-! ## SqlStatementGenerator (services/sql_generator.py) -/

/-- The `details: dict[str, Any]` argument of `generate_sql_for_change`, modelled
as the typed fields the generator reads; `none` means the key is absent from the
dict. `details.get(k, d)` is `(field).getD d`, `details.get(k)` is the bare
option, and `"k" in details` is `(field).isSome`. -/
structure ChangeDetails where
  comment : Option String := none
  grantee : Option String := none
  grantee_type : Option String := none
  user_name : Option String := none
  role_name : Option String := none
  privilege : Option String := none
  on_type : Option String := none
  on_name : Option String := none
  with_grant_option : Option Bool := none
  is_imported_database : Option Bool := none
  login_name : Option String := none
  email : Option String := none
  password : Option String := none
  first_name : Option String := none
  last_name : Option String := none
  display_name : Option String := none
  default_namespace : Option String := none
  must_change_password : Option Bool := none
  disabled : Option Bool := none
  default_role : Option String := none
deriving DecidableEq, Repr

/-- Embedding of `_generate_snowflake_sql` (sql_generator.py lines 20-129).
The Python `match` on `change_type` (with the `if object_type == "role_assignment"`
guards) is an ordered conditional chain; `Except.error` models the uncaught
`AttributeError` raised by `on_type.upper()` when `details` lacks `"on_type"`
while `is_imported_database` is truthy (the `and` short-circuits otherwise). -/
def generateSnowflakeSql (change_type : String) (object_type : String)
    (object_name : String) (details : ChangeDetails) : Except String String :=
  if change_type == "create_role" then
    let comment := details.comment.getD ""
    let sql := "CREATE ROLE IF NOT EXISTS " ++ object_name
    let sql := if comment == "" then sql else sql ++ " COMMENT = '" ++ comment ++ "'"
    .ok (sql ++ ";")
  else if change_type == "drop_role" then
    .ok ("DROP ROLE IF EXISTS " ++ object_name ++ ";")
  else if change_type == "grant_role" then
    let grantee_type := pyUpper (details.grantee_type.getD "USER")
    .ok ("GRANT ROLE " ++ object_name ++ " TO " ++ grantee_type ++ " "
      ++ pyStr details.grantee ++ ";")
  else if change_type == "revoke_role" then
    let grantee_type := pyUpper (details.grantee_type.getD "USER")
    .ok ("REVOKE ROLE " ++ object_name ++ " FROM " ++ grantee_type ++ " "
      ++ pyStr details.grantee ++ ";")
  else if change_type == "grant" && object_type == "role_assignment" then
    .ok ("GRANT ROLE " ++ pyStr details.role_name ++ " TO USER "
      ++ pyStr details.user_name ++ ";")
  else if change_type == "revoke" && object_type == "role_assignment" then
    .ok ("REVOKE ROLE " ++ pyStr details.role_name ++ " FROM USER "
      ++ pyStr details.user_name ++ ";")
  else if change_type == "grant_privilege" then
    let with_grant := details.with_grant_option.getD false
    let is_imported := details.is_imported_database.getD false
    let generic : Except String String :=
      let sql := "GRANT " ++ pyStr details.privilege ++ " ON " ++ pyStr details.on_type
        ++ " " ++ pyStr details.on_name ++ " TO ROLE " ++ object_name
      let sql := if with_grant then sql ++ " WITH GRANT OPTION" else sql
      .ok (sql ++ ";")
    if is_imported then
      match details.on_type with
      | none => .error "AttributeError: NoneType object has no attribute upper"
      | some t =>
        if pyUpper t == "DATABASE" then
          .ok ("GRANT IMPORTED PRIVILEGES ON DATABASE " ++ pyStr details.on_name
            ++ " TO ROLE " ++ object_name ++ ";")
        else generic
    else generic
  else if change_type == "revoke_privilege" then
    .ok ("REVOKE " ++ pyStr details.privilege ++ " ON " ++ pyStr details.on_type
      ++ " " ++ pyStr details.on_name ++ " FROM ROLE " ++ object_name ++ ";")
  else if change_type == "create_user" then
    let login_name := details.login_name.getD object_name
    let email := details.email.getD ""
    let password := details.password.getD ""
    let first_name := details.first_name.getD ""
    let last_name := details.last_name.getD ""
    let display_name := details.display_name.getD ""
    let comment := details.comment.getD ""
    let default_namespace := details.default_namespace.getD ""
    let must_change_password := details.must_change_password.getD true
    let sql := "CREATE USER IF NOT EXISTS " ++ object_name
    let sql := sql ++ " LOGIN_NAME = '" ++ login_name ++ "'"
    let sql := if password == "" then sql else
      let sql := sql ++ " PASSWORD = '" ++ password ++ "'"
      if must_change_password then sql ++ " MUST_CHANGE_PASSWORD = TRUE" else sql
    let sql := if email == "" then sql else sql ++ " EMAIL = '" ++ email ++ "'"
    let sql := if first_name == "" then sql else sql ++ " FIRST_NAME = '" ++ first_name ++ "'"
    let sql := if last_name == "" then sql else sql ++ " LAST_NAME = '" ++ last_name ++ "'"
    let sql := if display_name == "" then sql else
      sql ++ " DISPLAY_NAME = '" ++ display_name ++ "'"
    let sql := if comment == "" then sql else sql ++ " COMMENT = '" ++ comment ++ "'"
    let sql := if default_namespace == "" then sql else
      sql ++ " DEFAULT_NAMESPACE = '" ++ default_namespace ++ "'"
    .ok (sql ++ ";")
  else if change_type == "drop_user" then
    .ok ("DROP USER IF EXISTS " ++ object_name ++ ";")
  else if change_type == "alter_user" then
    let alterations : List String :=
      (match details.disabled with
        | some b => [if b then "DISABLED = TRUE" else "DISABLED = FALSE"]
        | none => [])
      ++ (match details.default_role with
        | some r => ["DEFAULT_ROLE = " ++ r]
        | none => [])
    if alterations.isEmpty then
      .ok ("-- No changes for user " ++ object_name)
    else
      .ok ("ALTER USER " ++ object_name ++ " SET "
        ++ String.intercalate " " alterations ++ ";")
  else
    .ok ("-- Unsupported change type: " ++ change_type)

/-- Embedding of `_generate_databricks_sql` (sql_generator.py lines 132-156). -/
def generateDatabricksSql (change_type : String) (_object_type : String)
    (object_name : String) (details : ChangeDetails) : Except String String :=
  if change_type == "create_group" then
    .ok "-- CREATE GROUP not available via SQL in Databricks (use SCIM API)"
  else if change_type == "grant_privilege" then
    .ok ("GRANT " ++ pyStr details.privilege ++ " ON " ++ pyStr details.on_type
      ++ " " ++ pyStr details.on_name ++ " TO `" ++ object_name ++ "`;")
  else if change_type == "revoke_privilege" then
    .ok ("REVOKE " ++ pyStr details.privilege ++ " ON " ++ pyStr details.on_type
      ++ " " ++ pyStr details.on_name ++ " FROM `" ++ object_name ++ "`;")
  else
    .ok ("-- Unsupported change type for Databricks: " ++ change_type)

/-- Embedding of `generate_sql_for_change` (sql_generator.py lines 4-17):
dispatch on the platform identifier; unknown platforms raise `ValueError`. -/
def generate_sql_for_change (platform : String) (change_type : String)
    (object_type : String) (object_name : String) (details : ChangeDetails) :
    Except String String :=
  if platform == "snowflake" then
    generateSnowflakeSql change_type object_type object_name details
  else if platform == "databricks" then
    generateDatabricksSql change_type object_type object_name details
  else
    .error ("Unsupported platform: " ++ platform)

/-! ## ChangeDiffEngine: `preview_role_sql` (objects.py lines 1352-1502) -/

/-- PrivilegeSpec model (objects.py lines 969-974). -/
structure PrivilegeSpec where
  privilege : String
  object_type : String
  object_name : String
  is_imported_database : Bool := false
deriving DecidableEq, Repr

/-- RoleDesignRequest model (objects.py lines 977-990). -/
structure RoleDesignRequest where
  role_name : String
  description : Option String := none
  inherit_from_roles : List String := []
  privileges : List PrivilegeSpec := []
  assign_to_users : List String := []
  assign_to_roles : List String := []
  is_edit_mode : Bool := false
  original_inherited_roles : List String := []
  original_privileges : List PrivilegeSpec := []
  original_assigned_users : List String := []
  original_assigned_roles : List String := []
deriving DecidableEq, Repr

/-- SqlPreviewResponse model (objects.py lines 993-996). -/
structure SqlPreviewResponse where
  statements : List String
  summary : String
deriving DecidableEq, Repr

/-- Privilege identity key for the diff (objects.py lines 1368-1369):
`f"{p.privilege}|{p.object_type}|{p.object_name}"`. -/
def priv_key (p : PrivilegeSpec) : String :=
  p.privilege ++ "|" ++ p.object_type ++ "|" ++ p.object_name

/-- Edit-mode loop, objects.py lines 1384-1387: inherited roles whose grant is
emitted — members of `inherit_from_roles` missing from the original set. -/
def grantsInherited (d : RoleDesignRequest) : List String :=
  d.inherit_from_roles.filter (fun r => !(d.original_inherited_roles.contains r))

/-- Edit-mode loop, objects.py lines 1390-1393: inherited roles whose revoke is
emitted — members of `original_inherited_roles` missing from the new set. -/
def revokesInherited (d : RoleDesignRequest) : List String :=
  d.original_inherited_roles.filter (fun r => !(d.inherit_from_roles.contains r))

/-- Edit-mode loop, objects.py lines 1396-1406: privileges whose grant is
emitted — members of `privileges` whose `priv_key` is not in the original key set. -/
def grantsPrivileges (d : RoleDesignRequest) : List PrivilegeSpec :=
  d.privileges.filter (fun p => !((d.original_privileges.map priv_key).contains (priv_key p)))

/-- Edit-mode loop, objects.py lines 1409-1419: privileges whose revoke is
emitted — members of `original_privileges` whose `priv_key` is not in the new key set. -/
def revokesPrivileges (d : RoleDesignRequest) : List PrivilegeSpec :=
  d.original_privileges.filter (fun p => !((d.privileges.map priv_key).contains (priv_key p)))

/-- Edit-mode loop, objects.py lines 1422-1425: users whose assignment is granted. -/
def grantsUsers (d : RoleDesignRequest) : List String :=
  d.assign_to_users.filter (fun u => !(d.original_assigned_users.contains u))

/-- Edit-mode loop, objects.py lines 1428-1431: users whose assignment is revoked. -/
def revokesUsers (d : RoleDesignRequest) : List String :=
  d.original_assigned_users.filter (fun u => !(d.assign_to_users.contains u))

/-- Edit-mode loop, objects.py lines 1434-1437: roles whose assignment is granted. -/
def grantsRoles (d : RoleDesignRequest) : List String :=
  d.assign_to_roles.filter (fun r => !(d.original_assigned_roles.contains r))

/-- Edit-mode loop, objects.py lines 1440-1443: roles whose assignment is revoked. -/
def revokesRoles (d : RoleDesignRequest) : List String :=
  d.original_assigned_roles.filter (fun r => !(d.assign_to_roles.contains r))

/-- The grant-privilege statement rendered in edit mode (objects.py lines 1398-1405)
and create mode (lines 1476-1484): the `IMPORTED PRIVILEGES` form when the spec is
flagged imported and its (upper-cased) object type is DATABASE, else the generic form. -/
def privGrantStatement (role_name : String) (p : PrivilegeSpec) : String :=
  if p.is_imported_database && (pyUpper p.object_type == "DATABASE") then
    "GRANT IMPORTED PRIVILEGES ON DATABASE " ++ p.object_name ++ " TO ROLE " ++ role_name ++ ";"
  else
    "GRANT " ++ p.privilege ++ " ON " ++ p.object_type ++ " " ++ p.object_name
      ++ " TO ROLE " ++ role_name ++ ";"

/-- The revoke-privilege statement rendered in edit mode (objects.py lines 1411-1418). -/
def privRevokeStatement (role_name : String) (p : PrivilegeSpec) : String :=
  if p.is_imported_database && (pyUpper p.object_type == "DATABASE") then
    "REVOKE IMPORTED PRIVILEGES ON DATABASE " ++ p.object_name ++ " FROM ROLE "
      ++ role_name ++ ";"
  else
    "REVOKE " ++ p.privilege ++ " ON " ++ p.object_type ++ " " ++ p.object_name
      ++ " FROM ROLE " ++ role_name ++ ";"

/-- Edit-mode statement list (objects.py lines 1383-1443): the eight loops run in
source order, each appending its statements; the loops are independent, so the
list is the concatenation of the per-loop statement lists. -/
def editStatements (d : RoleDesignRequest) : List String :=
  (grantsInherited d).map (fun r => "GRANT ROLE " ++ r ++ " TO ROLE " ++ d.role_name ++ ";")
  ++ (revokesInherited d).map (fun r => "REVOKE ROLE " ++ r ++ " FROM ROLE " ++ d.role_name ++ ";")
  ++ (grantsPrivileges d).map (privGrantStatement d.role_name)
  ++ (revokesPrivileges d).map (privRevokeStatement d.role_name)
  ++ (grantsUsers d).map (fun u => "GRANT ROLE " ++ d.role_name ++ " TO USER " ++ u ++ ";")
  ++ (revokesUsers d).map (fun u => "REVOKE ROLE " ++ d.role_name ++ " FROM USER " ++ u ++ ";")
  ++ (grantsRoles d).map (fun r => "GRANT ROLE " ++ d.role_name ++ " TO ROLE " ++ r ++ ";")
  ++ (revokesRoles d).map (fun r => "REVOKE ROLE " ++ d.role_name ++ " FROM ROLE " ++ r ++ ";")

/-- `grants_count` accumulated across the four grant loops (objects.py lines
1380, 1387, 1406, 1425, 1437). -/
def editGrantsCount (d : RoleDesignRequest) : Nat :=
  (grantsInherited d).length + (grantsPrivileges d).length
    + (grantsUsers d).length + (grantsRoles d).length

/-- `revokes_count` accumulated across the four revoke loops (objects.py lines
1381, 1393, 1419, 1431, 1443). -/
def editRevokesCount (d : RoleDesignRequest) : Nat :=
  (revokesInherited d).length + (revokesPrivileges d).length
    + (revokesUsers d).length + (revokesRoles d).length

/-- Create-mode statement list (objects.py lines 1459-1492): CREATE ROLE with
optional comment, then unconditional grants for every item of the design. -/
def createStatements (d : RoleDesignRequest) : List String :=
  let comment := d.description.getD ""
  let create_sql := "CREATE ROLE IF NOT EXISTS " ++ d.role_name
  let create_sql := if comment == "" then create_sql else
    create_sql ++ " COMMENT = '" ++ comment ++ "'"
  [create_sql ++ ";"]
  ++ d.inherit_from_roles.map (fun r => "GRANT ROLE " ++ r ++ " TO ROLE " ++ d.role_name ++ ";")
  ++ d.privileges.map (privGrantStatement d.role_name)
  ++ d.assign_to_users.map (fun u => "GRANT ROLE " ++ d.role_name ++ " TO USER " ++ u ++ ";")
  ++ d.assign_to_roles.map (fun r => "GRANT ROLE " ++ d.role_name ++ " TO ROLE " ++ r ++ ";")

/-- Create-mode summary (objects.py lines 1494-1500). -/
def createSummary (d : RoleDesignRequest) : String :=
  let s := "Creates role " ++ d.role_name
  let s := if d.inherit_from_roles.isEmpty then s else
    s ++ " inheriting from " ++ toString d.inherit_from_roles.length ++ " role(s)"
  let s := if d.privileges.isEmpty then s else
    s ++ " with " ++ toString d.privileges.length ++ " privilege(s)"
  if d.assign_to_users.isEmpty then s else
    s ++ ", assigned to " ++ toString d.assign_to_users.length ++ " user(s)"

/-- Edit-mode summary (objects.py lines 1448-1457). -/
def editSummary (d : RoleDesignRequest) : String :=
  let grants_count := editGrantsCount d
  let revokes_count := editRevokesCount d
  let parts : List String :=
    (if grants_count > 0 then [toString grants_count ++ " grant(s)"] else [])
    ++ (if revokes_count > 0 then [toString revokes_count ++ " revoke(s)"] else [])
  if parts.isEmpty then "No changes to role " ++ d.role_name
  else "Modifies role " ++ d.role_name ++ " with " ++ String.intercalate " and " parts

/-- Embedding of `preview_role_sql` (objects.py lines 1352-1502): edit mode emits
the diff statements (or the single no-op placeholder when there are none) with
the modifies/no-changes summary; create mode emits CREATE ROLE plus all grants. -/
def previewRoleSql (d : RoleDesignRequest) : SqlPreviewResponse :=
  if d.is_edit_mode then
    let stmts := editStatements d
    { statements := if stmts.isEmpty then ["-- No changes to role " ++ d.role_name] else stmts,
      summary := editSummary d }
  else
    { statements := createStatements d, summary := createSummary d }

/-! ## RoleGraph traversal and AccessAggregator (objects.py lines 703-910) -/

/-- RoleAssignment record (models/database.py lines 203-216): an edge stating
that `role_name` is granted to `assignee_name` (a USER or a ROLE). -/
structure RoleAssignment where
  role_name : String
  assignee_type : String
  assignee_name : String
  assigned_by : Option String := none
  created_on : Option String := none
deriving DecidableEq, Repr

/-- PlatformRole record, the fields read by `get_user_access` (name, is_system). -/
structure PlatformRole where
  name : String
  is_system : Bool := false
deriving DecidableEq, Repr

/-- PlatformGrant record, the fields read by `get_user_access` (models/database.py
lines 219-237); nullable columns are `Option`. -/
structure PlatformGrant where
  privilege : String
  object_type : Option String := none
  object_name : Option String := none
  object_database : Option String := none
  object_schema : Option String := none
  grantee_type : String
  grantee_name : String
deriving DecidableEq, Repr

/-- RoleWithPath model (objects.py lines 34-39). -/
structure RoleWithPath where
  name : String
  granted_via : String
  is_inherited : Bool
  is_system : Bool := false
deriving DecidableEq, Repr

/-- PrivilegeGrant model (objects.py lines 42-45). -/
structure PrivilegeGrant where
  privilege : String
  granted_via : String
deriving DecidableEq, Repr

/-- TableAccess model (objects.py lines 48-52). -/
structure TableAccess where
  name : String
  privilege : String
  granted_via : String
deriving DecidableEq, Repr

/-- SchemaAccess model (objects.py lines 55-60). -/
structure SchemaAccess where
  name : String
  privileges : List PrivilegeGrant
  tables : List TableAccess
  views : List TableAccess
deriving DecidableEq, Repr

/-- DatabaseAccess model (objects.py lines 63-67); the `schemas` dict is an
insertion-ordered association list. -/
structure DatabaseAccess where
  name : String
  privileges : List PrivilegeGrant
  schemas : List (String × SchemaAccess)
deriving DecidableEq, Repr

/-- AccessSummary model (objects.py lines 70-75). -/
structure AccessSummary where
  total_databases : Nat
  total_schemas : Nat
  total_tables : Nat
  total_views : Nat
deriving DecidableEq, Repr

/-- First-match lookup in an insertion-ordered association list; since every
writer below inserts a key at most once, this agrees with a Python dict. -/
def lookupKey {α : Type} : List (String × α) → String → Option α
  | [], _ => none
  | (k, v) :: rest, key => if k == key then some v else lookupKey rest key

/-- The traversal state threaded through `traverse_roles` (objects.py lines
753-756): the emitted `roles_with_paths`, the `role_to_path` dict (insertion
ordered) and the `visited_roles` set (kept as the insertion-ordered list of
first visits, membership being all the code uses). -/
structure TravState where
  rolesWithPaths : List RoleWithPath
  roleToPath : List (String × String)
  visited : List String
deriving DecidableEq, Repr

/-- Initial traversal state: all three containers empty. -/
def TravState.init : TravState := ⟨[], [], []⟩

/-- Adjacency of the role graph built at objects.py lines 745-750:
`role_children[name]` lists, in assignment order, the `assignee_name` of every
ROLE-typed assignment whose `role_name` is `name`. -/
def roleChildren (assignments : List RoleAssignment) (name : String) : List String :=
  (assignments.filter (fun a => a.assignee_type == "ROLE" && a.role_name == name)).map
    (fun a => a.assignee_name)

/-- `is_system` lookup through the `role_info` dict (objects.py lines 736, 767,
772); the dict comprehension keeps the last record for a duplicated name. -/
def roleIsSystem (roles : List PlatformRole) (name : String) : Bool :=
  match roles.reverse.find? (fun r => r.name == name) with
  | some r => r.is_system
  | none => false

/-- Embedding of `traverse_roles` (objects.py lines 758-777): guarded depth-first
recursion. A visited role returns the state unchanged; otherwise the role is
emitted with path `" → ".join(path + [role])`, recorded in `role_to_path` and in
`visited`, and the children are traversed in order, threading the state. The
`fuel` argument makes the recursion structural; `none` means fuel ran out (shown
impossible for the bound used by `runTraversal`). -/
def traverseRoles (children : String → List String) (isSystem : String → Bool) :
    Nat → String → List String → TravState → Option TravState
  | 0, _, _, _ => none
  | fuel + 1, role, path, st =>
    if st.visited.contains role then some st
    else
      let currentPath := path ++ [role]
      let pathStr := String.intercalate " → " currentPath
      let st1 : TravState :=
        { rolesWithPaths := st.rolesWithPaths
            ++ [{ name := role, granted_via := pathStr,
                  is_inherited := decide (path.length > 0), is_system := isSystem role }],
          roleToPath := st.roleToPath ++ [(role, pathStr)],
          visited := st.visited ++ [role] }
      (children role).foldl
        (fun acc c => acc.bind (fun s => traverseRoles children isSystem fuel c currentPath s))
        (some st1)

/-- The root loop of the traversal (objects.py lines 780-781): each root role is
traversed with an empty path, threading the shared state. -/
def runTraversal (children : String → List String) (isSystem : String → Bool)
    (fuel : Nat) (roots : List String) : Option TravState :=
  roots.foldl (fun acc r => acc.bind (fun s => traverseRoles children isSystem fuel r [] s))
    (some TravState.init)

/-- The mutable per-schema bucket of the aggregation loop:
`{"privileges": [], "tables": [], "views": []}` (objects.py line 833). -/
structure SchemaEntry where
  privileges : List PrivilegeGrant := []
  tables : List TableAccess := []
  views : List TableAccess := []
deriving DecidableEq, Repr

/-- The mutable per-database bucket: `{"privileges": [], "schemas": {}}`
(objects.py line 814). -/
structure DbEntry where
  privileges : List PrivilegeGrant := []
  schemas : List (String × SchemaEntry) := []
deriving DecidableEq, Repr

/-- The `db_data` dict (objects.py line 800), insertion ordered. -/
abbrev DbData : Type := List (String × DbEntry)

/-- Whether `db_data` already holds a database key. -/
def dbContains (m : DbData) (k : String) : Bool :=
  (lookupKey m k).isSome

/-- `db_data[db_name] = {"privileges": [], "schemas": {}}` when absent
(objects.py lines 813-814). -/
def ensureDb (m : DbData) (k : String) : DbData :=
  if dbContains m k then m else m ++ [(k, ⟨[], []⟩)]

/-- In-place update of the entry of an existing database key. -/
def updateDb (m : DbData) (k : String) (f : DbEntry → DbEntry) : DbData :=
  m.map (fun kv => if kv.1 == k then (kv.1, f kv.2) else kv)

/-- In-place update of a schema bucket inside a database entry, initializing the
schema bucket when absent (objects.py lines 832-835, 841-844, 851-854). -/
def updateSchema (e : DbEntry) (schema : String) (f : SchemaEntry → SchemaEntry) : DbEntry :=
  let schemas := if (lookupKey e.schemas schema).isSome then e.schemas
    else e.schemas ++ [(schema, ⟨[], [], []⟩)]
  { e with schemas := schemas.map (fun kv => if kv.1 == schema then (kv.1, f kv.2) else kv) }

/-- The account-level object types of objects.py lines 822-824. -/
def accountObjectTypes : List String :=
  ["WAREHOUSE", "ROLE", "USER", "INTEGRATION", "NOTIFICATION_INTEGRATION",
   "SECURITY_INTEGRATION", "STORAGE_INTEGRATION", "RESOURCE_MONITOR",
   "ACCOUNT", "NETWORK_POLICY", "SHARE"]

/-- One iteration of the grant-aggregation loop (objects.py lines 804-868).
`none` models the uncaught `KeyError` raised by `db_data["ACCOUNT"]` (lines 827
and 866) when the ACCOUNT pseudo-database bucket has not been created: line 813
only initializes `db_data[db_name]`, and `db_name` is the grant's database when
that is truthy. -/
def processGrant (roleToPath : List (String × String)) (st : DbData)
    (g : PlatformGrant) : Option DbData :=
  let db_name := pyOr g.object_database "ACCOUNT"
  let schema_name := g.object_schema
  let obj_type := if truthy g.object_type then pyUpper (g.object_type.getD "") else ""
  let obj_name := g.object_name
  let privilege := g.privilege
  let granted_via := (lookupKey roleToPath g.grantee_name).getD g.grantee_name
  let st := ensureDb st db_name
  if obj_type == "DATABASE" then
    some (updateDb st db_name (fun e =>
      { e with privileges := e.privileges ++ [⟨privilege, granted_via⟩] }))
  else if accountObjectTypes.contains obj_type then
    let priv_display := if truthy obj_name then
        privilege ++ " on " ++ obj_type ++ " " ++ pyStr obj_name
      else privilege ++ " on " ++ obj_type
    if dbContains st "ACCOUNT" then
      some (updateDb st "ACCOUNT" (fun e =>
        { e with privileges := e.privileges ++ [⟨priv_display, granted_via⟩] }))
    else none
  else if obj_type == "SCHEMA" && truthy schema_name then
    some (updateDb st db_name (fun e => updateSchema e (pyStr schema_name) (fun s =>
      { s with privileges := s.privileges ++ [⟨privilege, granted_via⟩] })))
  else if (obj_type == "TABLE" || obj_type == "VIEW")
      && truthy schema_name && truthy obj_name then
    some (updateDb st db_name (fun e => updateSchema e (pyStr schema_name) (fun s =>
      if obj_type == "TABLE" then
        { s with tables := s.tables ++ [⟨pyStr obj_name, privilege, granted_via⟩] }
      else
        { s with views := s.views ++ [⟨pyStr obj_name, privilege, granted_via⟩] })))
  else if truthy schema_name then
    some (updateDb st db_name (fun e => updateSchema e (pyStr schema_name) (fun s =>
      { s with tables := s.tables
          ++ [⟨(pyOr obj_name "ALL") ++ " (" ++ obj_type ++ ")", privilege, granted_via⟩] })))
  else if !(truthy schema_name) && truthy obj_name then
    let priv_display := if !(obj_type == "") then
        privilege ++ " on " ++ obj_type ++ " " ++ pyStr obj_name
      else privilege ++ " on " ++ pyStr obj_name
    if dbContains st "ACCOUNT" then
      some (updateDb st "ACCOUNT" (fun e =>
        { e with privileges := e.privileges ++ [⟨priv_display, granted_via⟩] }))
    else none
  else
    some st

/-- The full grant loop `for grant in grants:` (objects.py line 804), stopping
at the first uncaught `KeyError`. -/
def aggregateGrants (roleToPath : List (String × String)) :
    List PlatformGrant → DbData → Option DbData
  | [], st => some st
  | g :: gs, st =>
    match processGrant roleToPath st g with
    | none => none
    | some st2 => aggregateGrants roleToPath gs st2

/-- Insertion into a list sorted by code-point order (`Python sorted` on the
unique keys of a dict). -/
def insertSorted (s : String) : List String → List String
  | [] => [s]
  | x :: xs => if pyLt s x then s :: x :: xs else x :: insertSorted s xs

/-- `sorted(keys)` for the key lists of the conversion loops (objects.py lines
874, 878). -/
def sortStrings (l : List String) : List String :=
  l.foldr insertSorted []

/-- Inner conversion loop (objects.py lines 878-887): builds `schemas_dict` in
sorted key order while accumulating `total_tables` and `total_views`. -/
def convertSchemaLoop (schemas : List (String × SchemaEntry)) :
    List String → List (String × SchemaAccess) → Nat → Nat →
    List (String × SchemaAccess) × Nat × Nat
  | [], acc, tt, tv => (acc, tt, tv)
  | k :: ks, acc, tt, tv =>
    let e := (lookupKey schemas k).getD {}
    convertSchemaLoop schemas ks (acc ++ [(k, ⟨k, e.privileges, e.tables, e.views⟩)])
      (tt + e.tables.length) (tv + e.views.length)

/-- Outer conversion loop (objects.py lines 874-894): builds the `databases`
list in sorted key order while accumulating `total_schemas` (and threading
`total_tables` / `total_views` through the inner loop). -/
def convertDbLoop (dbData : DbData) :
    List String → List DatabaseAccess → Nat → Nat → Nat →
    List DatabaseAccess × Nat × Nat × Nat
  | [], acc, ts, tt, tv => (acc, ts, tt, tv)
  | k :: ks, acc, ts, tt, tv =>
    let data := (lookupKey dbData k).getD {}
    let r := convertSchemaLoop data.schemas (sortStrings (data.schemas.map Prod.fst)) [] tt tv
    convertDbLoop dbData ks (acc ++ [⟨k, data.privileges, r.1⟩])
      (ts + r.1.length) r.2.1 r.2.2

/-- UserAccessResponse, the engine-relevant fields (objects.py lines 78-87,
896-910): the user-metadata fields (email, display name, disabled) pass through
from the store untouched and are omitted. -/
structure UserAccessResponse where
  user : String
  roles : List RoleWithPath
  role_count : Nat
  databases : List DatabaseAccess
  summary : AccessSummary
deriving DecidableEq, Repr

/-- Embedding of the `get_user_access` endpoint computation (objects.py lines
703-910) for an existing user: direct roles, graph traversal, grant filtering
(the SQL query at lines 788-794 keeps grants whose grantee is a traversed role,
with grantee_type ROLE), aggregation, conversion and summary. `none` models an
uncaught exception. The traversal fuel `assignments.length + roots.length + 1`
is proven sufficient (never exhausted) separately. -/
def get_user_access (user_name : String) (assignments : List RoleAssignment)
    (roles : List PlatformRole) (grants : List PlatformGrant) :
    Option UserAccessResponse :=
  let user_direct_roles :=
    (assignments.filter (fun a => a.assignee_type == "USER" && a.assignee_name == user_name)).map
      (fun a => a.role_name)
  let children := roleChildren assignments
  let isSystem := roleIsSystem roles
  let fuel := assignments.length + user_direct_roles.length + 1
  match runTraversal children isSystem fuel user_direct_roles with
  | none => none
  | some st =>
    let all_user_roles := st.roleToPath.map Prod.fst
    let grantsFiltered := grants.filter
      (fun g => all_user_roles.contains g.grantee_name && g.grantee_type == "ROLE")
    match aggregateGrants st.roleToPath grantsFiltered [] with
    | none => none
    | some dbData =>
      let r := convertDbLoop dbData (sortStrings (dbData.map Prod.fst)) [] 0 0 0
      some { user := user_name,
             roles := st.rolesWithPaths,
             role_count := st.rolesWithPaths.length,
             databases := r.1,
             summary := { total_databases := r.1.length, total_schemas := r.2.1,
                          total_tables := r.2.2.1, total_views := r.2.2.2 } }

/-! ## Helper definitions for stating the verified properties -/

/-- One role configuration (the four diffable categories) of a role design;
used to state diff symmetry between an original and a desired configuration. -/
structure RoleConfig where
  inherited : List String
  privileges : List PrivilegeSpec
  users : List String
  roles : List String
deriving DecidableEq, Repr

/-- The edit-mode design whose original state is `original` and desired state
is `desired`. -/
def mkEditDesign (name : String) (original desired : RoleConfig) : RoleDesignRequest :=
  { role_name := name,
    is_edit_mode := true,
    inherit_from_roles := desired.inherited,
    privileges := desired.privileges,
    assign_to_users := desired.users,
    assign_to_roles := desired.roles,
    original_inherited_roles := original.inherited,
    original_privileges := original.privileges,
    original_assigned_users := original.users,
    original_assigned_roles := original.roles }

/-- State extension: the traversal only appends to the three containers. -/
def TravExt (st st2 : TravState) : Prop :=
  st.visited <+: st2.visited ∧ st.roleToPath <+: st2.roleToPath
    ∧ st.rolesWithPaths <+: st2.rolesWithPaths

/-- Traversal state well-formedness: `visited`, `role_to_path` and
`roles_with_paths` record exactly the same roles, in first-visit order,
without repetition. -/
def StInv (st : TravState) : Prop :=
  st.visited.Nodup
    ∧ st.visited = st.rolesWithPaths.map RoleWithPath.name
    ∧ st.roleToPath = st.rolesWithPaths.map (fun e => (e.name, e.granted_via))

/-- Number of carrier roles not yet visited — the decreasing measure of the
traversal. -/
def unvisitedCount (carrier : List String) (st : TravState) : Nat :=
  (carrier.filter (fun r => !(st.visited.contains r))).length

/-- The finite name carrier of a traversal: its roots plus every assignee name,
which includes every child any adjacency query can return. -/
def travCarrier (assignments : List RoleAssignment) (roots : List String) : List String :=
  roots ++ assignments.map (fun a => a.assignee_name)

/-- Number of table entries in a nested database-access structure. -/
def tablesTotal (dbs : List DatabaseAccess) : Nat :=
  (dbs.map (fun d => (d.schemas.map (fun kv => kv.2.tables.length)).sum)).sum

/-- Number of view entries in a nested database-access structure. -/
def viewsTotal (dbs : List DatabaseAccess) : Nat :=
  (dbs.map (fun d => (d.schemas.map (fun kv => kv.2.views.length)).sum)).sum

/-- Number of schema entries in a nested database-access structure. -/
def schemasTotal (dbs : List DatabaseAccess) : Nat :=
  (dbs.map (fun d => d.schemas.length)).sum

/-- Closed form of the inner conversion loop output list: the schema buckets in
the given key order. -/
def builtSchemas (schemas : List (String × SchemaEntry)) (ks : List String) :
    List (String × SchemaAccess) :=
  ks.map (fun k =>
    let e := (lookupKey schemas k).getD ⟨[], [], []⟩
    (k, ⟨k, e.privileges, e.tables, e.views⟩))

/-- Closed form of the outer conversion loop output list: the database entries
in the given key order, each with its sorted schema buckets. -/
def builtDbs (dbData : DbData) (ks : List String) : List DatabaseAccess :=
  ks.map (fun k =>
    let data := (lookupKey dbData k).getD ⟨[], []⟩
    ⟨k, data.privileges, builtSchemas data.schemas (sortStrings (data.schemas.map Prod.fst))⟩)

/-- The empty `details` dict. -/
def ChangeDetails.empty : ChangeDetails := {}

/-- Details dict `{"is_imported_database": True}` — the witness input on which
the Snowflake renderer evaluates `None.upper()`. -/
def importedNoTypeDetails : ChangeDetails := { is_imported_database := some true }

/-- Create-mode design of the imported-database scenario: a single privilege
`{IMPORTED PRIVILEGES, DATABASE, SNOWFLAKE, is_imported_database=true}`. -/
def importedScenarioDesign (role : String) : RoleDesignRequest :=
  { role_name := role,
    privileges := [⟨"IMPORTED PRIVILEGES", "DATABASE", "SNOWFLAKE", true⟩] }

/-- The assignment set of the user-access scenario:
DATA_VIEWER granted to role ANALYST, ANALYST granted to user alice. -/
def scenarioAssignments : List RoleAssignment :=
  [⟨"DATA_VIEWER", "ROLE", "ANALYST", none, none⟩,
   ⟨"ANALYST", "USER", "alice", none, none⟩]

/-- The role table of the user-access scenario. -/
def scenarioRoles : List PlatformRole :=
  [⟨"ANALYST", false⟩, ⟨"DATA_VIEWER", false⟩]

/-- The single grant of the user-access scenario: SELECT on TABLE DB.SCHEMA.T
to role DATA_VIEWER. -/
def scenarioGrants : List PlatformGrant :=
  [⟨"SELECT", some "TABLE", some "T", some "DB", some "SCHEMA", "ROLE", "DATA_VIEWER"⟩]

/-- A stale-snapshot grant: an account-level object type (WAREHOUSE) together
with a non-null `object_database`. -/
def staleWarehouseGrant : PlatformGrant :=
  ⟨"USAGE", some "WAREHOUSE", some "WH1", some "DB1", none, "ROLE", "R"⟩

/-- Witness input for the aggregation-count property: one table grant and one
schema grant reachable through role R of user u. -/
def countsWitnessGrants : List PlatformGrant :=
  [⟨"SELECT", some "TABLE", some "T1", some "DB", some "SC", "ROLE", "R"⟩,
   ⟨"USAGE", some "SCHEMA", none, some "DB", some "SC", "ROLE", "R"⟩,
   ⟨"SELECT", some "VIEW", some "V1", some "DB", some "SC", "ROLE", "R"⟩]

/-- The response the witness input evaluates to (recovered from the computation
itself; the defining equation is proved in the witness). -/
def countsWitnessResponse : UserAccessResponse :=
  (get_user_access "u" [⟨"R", "USER", "u", none, none⟩] [⟨"R", false⟩]
    countsWitnessGrants).getD ⟨"", [], 0, [], ⟨0, 0, 0, 0⟩⟩

/-- A sample role configuration used to witness the idempotent diff. -/
def sampleConfig : RoleConfig :=
  ⟨["PARENT"], [⟨"SELECT", "TABLE", "DB.SC.T", false⟩], ["u1"], ["r1"]⟩

/-- Witness design whose privilege is present on both sides of the diff with the
same key but a flipped `is_imported_database` flag. -/
def flagFlipDesign : RoleDesignRequest :=
  mkEditDesign "R"
    ⟨[], [⟨"SELECT", "TABLE", "DB.SC.T", false⟩], [], []⟩
    ⟨[], [⟨"SELECT", "TABLE", "DB.SC.T", true⟩], [], []⟩

/-- The change types handled by the Snowflake renderer (including the guarded
`grant`/`revoke` role-assignment forms). -/
def snowflakeChangeTypes : List String :=
  ["create_role", "drop_role", "grant_role", "revoke_role", "grant", "revoke",
   "grant_privilege", "revoke_privilege", "create_user", "drop_user", "alter_user"]

/-- The change types handled by the Databricks renderer. -/
def databricksChangeTypes : List String :=
  ["create_group", "grant_privilege", "revoke_privilege"]

/-- A cyclic assignment set (self-loop on A plus a two-cycle A/B) used to
witness cycle safety. -/
def cyclicAssignments : List RoleAssignment :=
  [⟨"A", "ROLE", "A", none, none⟩, ⟨"A", "ROLE", "B", none, none⟩,
   ⟨"B", "ROLE", "A", none, none⟩]

/-- A traversal state that already records a provenance path for role X. -/
def seededState : TravState := ⟨[], [("X", "X")], []⟩

/-- The state the cyclic traversal reaches from the seeded state. -/
def cyclicResultState : TravState :=
  (traverseRoles (roleChildren cyclicAssignments) (roleIsSystem []) 5 "A" []
    seededState).getD seededState

/-! ## Theorems -/

theorem length_ne_zero_append (a b : String) (h : a.length ≠ 0) : a ++ b ≠ "" := by
  intro he
  apply h
  have hl := congrArg String.length he
  rw [String.length_append] at hl
  have h0 : ("" : String).length = 0 := rfl
  omega

theorem inherits_reason_ne_empty (a b : String) :
    "Inherits from " ++ a ++ " role(s), assigned to " ++ b ++ " user(s)" ≠ "" := by
  apply length_ne_zero_append
  rw [String.length_append, String.length_append, String.length_append]
  have h1 : ("Inherits from " : String).length = 14 := rfl
  omega

/-- Claim C9: for all inputs the role-type classifier returns exactly one of
functional, business or hybrid together with a non-empty reason string; in the
source priority order, functional fires iff the functional pattern holds (and
not the business pattern), business fires iff the business pattern holds (and
not the functional pattern) or as the default when no branch applies, hybrid
fires iff it has data grants and user or parent links and neither pure pattern
applied; each branch returns its fixed reason template, and the pure function
`_infer_role_type` of the sync service agrees with the router classifier. -/
theorem infer_role_type_total (g : Bool) (u p : Nat) :
    ((infer_role_type g u p).1 = RoleType.functional
      ∨ (infer_role_type g u p).1 = RoleType.business
      ∨ (infer_role_type g u p).1 = RoleType.hybrid)
    ∧ (infer_role_type g u p).2 ≠ ""
    ∧ ((infer_role_type g u p).1 = RoleType.functional ↔
        (g = true ∧ u = 0) ∧ ¬(p > 0 ∧ u > 0 ∧ g = false))
    ∧ ((infer_role_type g u p).1 = RoleType.hybrid ↔
        (g = true ∧ (u > 0 ∨ p > 0))
          ∧ ¬((g = true ∧ u = 0) ∧ ¬(p > 0 ∧ u > 0 ∧ g = false))
          ∧ ¬((p > 0 ∧ u > 0 ∧ g = false) ∧ ¬(g = true ∧ u = 0)))
    ∧ ((infer_role_type g u p).1 = RoleType.business ↔
        ((p > 0 ∧ u > 0 ∧ g = false) ∧ ¬(g = true ∧ u = 0))
          ∨ (¬((g = true ∧ u = 0) ∧ ¬(p > 0 ∧ u > 0 ∧ g = false))
              ∧ ¬((p > 0 ∧ u > 0 ∧ g = false) ∧ ¬(g = true ∧ u = 0))
              ∧ ¬(g = true ∧ (u > 0 ∨ p > 0))))
    ∧ (g = true ∧ u = 0 →
        (infer_role_type g u p).2 = "Direct data grants, no user assignments")
    ∧ (p > 0 ∧ u > 0 ∧ g = false →
        (infer_role_type g u p).2 = "Inherits from " ++ toString p
          ++ " role(s), assigned to " ++ toString u ++ " user(s)")
    ∧ (g = true ∧ u > 0 →
        (infer_role_type g u p).2 = "Mix of direct grants and role inheritance/user assignments")
    ∧ (g = false ∧ ¬(p > 0 ∧ u > 0) →
        (infer_role_type g u p).2 = "No direct data grants")
    ∧ sinfer_role_type g u p = ((infer_role_type g u p).1).label := by
  rcases g with _ | _ <;> rcases u with _ | u <;> rcases p with _ | p <;>
    simp [infer_role_type, sinfer_role_type, RoleType.label, inherits_reason_ne_empty]

/-- Claim C4: the edit-mode diff of a design against itself — each original
category equal to its desired counterpart — produces no GRANT and no REVOKE:
the statement list is exactly the placeholder comment and the summary is the
no-changes summary. -/
theorem diff_idempotent (d : RoleDesignRequest)
    (he : d.is_edit_mode = true)
    (h1 : d.original_inherited_roles = d.inherit_from_roles)
    (h2 : d.original_privileges = d.privileges)
    (h3 : d.original_assigned_users = d.assign_to_users)
    (h4 : d.original_assigned_roles = d.assign_to_roles) :
    previewRoleSql d =
      { statements := ["-- No changes to role " ++ d.role_name],
        summary := "No changes to role " ++ d.role_name } := by
  have g1 : grantsInherited d = [] := by
    rw [grantsInherited, h1]
    simp [List.filter_eq_nil_iff]
  have g2 : revokesInherited d = [] := by
    rw [revokesInherited, h1]
    simp [List.filter_eq_nil_iff]
  have g3 : grantsPrivileges d = [] := by
    rw [grantsPrivileges, h2]
    refine List.filter_eq_nil_iff.mpr ?_
    intro p hp
    simp [List.mem_map]
    exact ⟨p, hp, rfl⟩
  have g4 : revokesPrivileges d = [] := by
    rw [revokesPrivileges, h2]
    refine List.filter_eq_nil_iff.mpr ?_
    intro p hp
    simp [List.mem_map]
    exact ⟨p, hp, rfl⟩
  have g5 : grantsUsers d = [] := by
    rw [grantsUsers, h3]
    simp [List.filter_eq_nil_iff]
  have g6 : revokesUsers d = [] := by
    rw [revokesUsers, h3]
    simp [List.filter_eq_nil_iff]
  have g7 : grantsRoles d = [] := by
    rw [grantsRoles, h4]
    simp [List.filter_eq_nil_iff]
  have g8 : revokesRoles d = [] := by
    rw [revokesRoles, h4]
    simp [List.filter_eq_nil_iff]
  simp [previewRoleSql, he, editStatements, editSummary, editGrantsCount, editRevokesCount,
    g1, g2, g3, g4, g5, g6, g7, g8]

/-- Witness for C4: the idempotent diff on a concrete nonempty configuration. -/
theorem diff_idempotent_witness :
    previewRoleSql (mkEditDesign "R" sampleConfig sampleConfig) =
      { statements := ["-- No changes to role R"], summary := "No changes to role R" } :=
  diff_idempotent (mkEditDesign "R" sampleConfig sampleConfig) rfl rfl rfl rfl rfl

/-- Claim C5: for every pair of role configurations A and B and each of the four
change categories, the items granted by the diff from original A to desired B
are set-wise the items revoked by the diff from original B to desired A. -/
theorem diff_symmetry (name : String) (A B : RoleConfig) :
    (∀ r, r ∈ grantsInherited (mkEditDesign name A B)
        ↔ r ∈ revokesInherited (mkEditDesign name B A))
    ∧ (∀ p, p ∈ grantsPrivileges (mkEditDesign name A B)
        ↔ p ∈ revokesPrivileges (mkEditDesign name B A))
    ∧ (∀ u, u ∈ grantsUsers (mkEditDesign name A B)
        ↔ u ∈ revokesUsers (mkEditDesign name B A))
    ∧ (∀ r, r ∈ grantsRoles (mkEditDesign name A B)
        ↔ r ∈ revokesRoles (mkEditDesign name B A)) :=
  ⟨fun _ => Iff.rfl, fun _ => Iff.rfl, fun _ => Iff.rfl, fun _ => Iff.rfl⟩

/-- Witness for C5: a concrete inherited-role grant of Diff(A,B) is a revoke of
Diff(B,A). -/
theorem diff_symmetry_witness :
    "P" ∈ grantsInherited (mkEditDesign "R" ⟨[], [], [], []⟩ ⟨["P"], [], [], []⟩)
      ↔ "P" ∈ revokesInherited (mkEditDesign "R" ⟨["P"], [], [], []⟩ ⟨[], [], [], []⟩) :=
  (diff_symmetry "R" ⟨[], [], [], []⟩ ⟨["P"], [], [], []⟩).1 "P"

/-- Claim C6: privilege identity in the diff is the key
`privilege|object_type|object_name` alone — a spec present on both sides with
the same key but a different `is_imported_database` flag produces neither a
grant nor a revoke (and `PrivilegeSpec` carries no `with_grant_option` field at
all, so a grant-option difference cannot even be expressed). -/
theorem priv_flag_changes_ignored (d : RoleDesignRequest) (p q : PrivilegeSpec)
    (hp : p ∈ d.privileges) (hq : q ∈ d.original_privileges)
    (hkey : priv_key p = priv_key q)
    (hflag : p.is_imported_database ≠ q.is_imported_database) :
    p ∉ grantsPrivileges d ∧ q ∉ revokesPrivileges d := by
  constructor
  · intro hmem
    rw [grantsPrivileges, List.mem_filter] at hmem
    have h2 := hmem.2
    simp [hkey, List.mem_map] at h2
    exact h2 q hq rfl
  · intro hmem
    rw [revokesPrivileges, List.mem_filter] at hmem
    have h2 := hmem.2
    simp [← hkey, List.mem_map] at h2
    exact h2 p hp rfl

/-- Witness for C6: the concrete flipped-flag design produces neither statement. -/
theorem priv_flag_changes_ignored_witness :
    (⟨"SELECT", "TABLE", "DB.SC.T", true⟩ : PrivilegeSpec) ∉ grantsPrivileges flagFlipDesign
    ∧ (⟨"SELECT", "TABLE", "DB.SC.T", false⟩ : PrivilegeSpec)
        ∉ revokesPrivileges flagFlipDesign :=
  priv_flag_changes_ignored flagFlipDesign
    ⟨"SELECT", "TABLE", "DB.SC.T", true⟩ ⟨"SELECT", "TABLE", "DB.SC.T", false⟩
    (by decide) (by decide) rfl (by decide)

/-- Claim C7: whenever a privilege spec has `is_imported_database` set and its
object type upper-cases to DATABASE, the rendered grant — in the role-designer
preview (both modes use `privGrantStatement`) and in the Snowflake statement
generator — is exactly the dedicated `GRANT IMPORTED PRIVILEGES ON DATABASE …`
form, never the generic one; in particular the create-mode preview of the
`{IMPORTED PRIVILEGES, DATABASE, SNOWFLAKE, is_imported_database=true}` design
emits exactly the create statement followed by the imported-privileges grant. -/
theorem imported_privileges_form :
    (∀ (role : String) (p : PrivilegeSpec),
        p.is_imported_database = true → pyUpper p.object_type = "DATABASE" →
        privGrantStatement role p =
          "GRANT IMPORTED PRIVILEGES ON DATABASE " ++ p.object_name
            ++ " TO ROLE " ++ role ++ ";")
    ∧ (∀ (object_type object_name : String) (det : ChangeDetails) (t : String),
        det.is_imported_database = some true → det.on_type = some t →
        pyUpper t = "DATABASE" →
        generateSnowflakeSql "grant_privilege" object_type object_name det =
          .ok ("GRANT IMPORTED PRIVILEGES ON DATABASE " ++ pyStr det.on_name
            ++ " TO ROLE " ++ object_name ++ ";"))
    ∧ (∀ role : String, (previewRoleSql (importedScenarioDesign role)).statements =
        ["CREATE ROLE IF NOT EXISTS " ++ role ++ ";",
         "GRANT IMPORTED PRIVILEGES ON DATABASE SNOWFLAKE TO ROLE " ++ role ++ ";"]) := by
  refine ⟨?_, ?_, ?_⟩
  · intro role p h1 h2
    simp [privGrantStatement, h1, h2]
  · intro object_type object_name det t h1 h2 h3
    simp [generateSnowflakeSql, h1, h2, h3]
  · intro role
    have hup : pyUpper "DATABASE" = "DATABASE" := rfl
    simp [previewRoleSql, importedScenarioDesign, createStatements, createSummary,
      privGrantStatement, hup]

/-- Witness for C7: a concrete imported-database privilege whose generic form
would differ, rendered in the dedicated form. -/
theorem imported_privileges_form_witness :
    privGrantStatement "R" ⟨"USAGE", "DATABASE", "SHARED_DB", true⟩ =
      "GRANT IMPORTED PRIVILEGES ON DATABASE SHARED_DB TO ROLE R;" :=
  imported_privileges_form.1 "R" ⟨"USAGE", "DATABASE", "SHARED_DB", true⟩ rfl rfl

theorem databricks_always_ok (ct ot obj : String) (det : ChangeDetails) :
    (generateDatabricksSql ct ot obj det).isOk = true := by
  unfold generateDatabricksSql
  split_ifs <;> rfl

/-- Witness for C9: the classifier applied to a container role with no grants
and no links returns the default business reason. -/
theorem infer_role_type_total_witness :
    (infer_role_type false 0 0).2 = "No direct data grants" :=
  (infer_role_type_total false 0 0).2.2.2.2.2.2.2.2.1 ⟨rfl, by simp⟩

theorem isOk_ok (x : String) : (Except.ok x : Except String String).isOk = true := rfl

theorem isOk_error (x : String) : (Except.error x : Except String String).isOk = false := rfl

theorem snowflake_err_charac (ct ot obj : String) (det : ChangeDetails) :
    (generateSnowflakeSql ct ot obj det).isOk = false ↔
      ct = "grant_privilege" ∧ det.is_imported_database = some true
        ∧ det.on_type = none := by
  by_cases h1 : ct = "create_role"
  · subst h1; simp [generateSnowflakeSql, isOk_ok, isOk_error]
  by_cases h2 : ct = "drop_role"
  · subst h2; simp [generateSnowflakeSql, isOk_ok, isOk_error]
  by_cases h3 : ct = "grant_role"
  · subst h3; simp [generateSnowflakeSql, isOk_ok, isOk_error]
  by_cases h4 : ct = "revoke_role"
  · subst h4; simp [generateSnowflakeSql, isOk_ok, isOk_error]
  by_cases h5 : ct = "grant"
  · subst h5
    simp [generateSnowflakeSql, isOk_ok, isOk_error]
    split_ifs <;> simp [isOk_ok]
  by_cases h6 : ct = "revoke"
  · subst h6
    simp [generateSnowflakeSql, isOk_ok, isOk_error]
    split_ifs <;> simp [isOk_ok]
  by_cases h7 : ct = "grant_privilege"
  · subst h7
    rcases hIm : det.is_imported_database with _ | b
    · simp [generateSnowflakeSql, isOk_ok, isOk_error, hIm]
    · rcases hb : b
      · subst hb; simp [generateSnowflakeSql, isOk_ok, isOk_error, hIm]
      · subst hb
        rcases hOT : det.on_type with _ | t
        · simp [generateSnowflakeSql, isOk_ok, isOk_error, hIm, hOT]
        · refine iff_of_false ?_ ?_
          · have hok : (generateSnowflakeSql "grant_privilege" ot obj det).isOk = true := by
              simp only [generateSnowflakeSql, hIm, hOT]
              norm_num
              split_ifs <;> simp [isOk_ok]
            simp [hok]
          · simp [hOT]
  by_cases h8 : ct = "revoke_privilege"
  · subst h8; simp [generateSnowflakeSql, isOk_ok, isOk_error]
  by_cases h9 : ct = "create_user"
  · subst h9; simp [generateSnowflakeSql, isOk_ok, isOk_error]
  by_cases h10 : ct = "drop_user"
  · subst h10; simp [generateSnowflakeSql, isOk_ok, isOk_error]
  by_cases h11 : ct = "alter_user"
  · subst h11
    simp [generateSnowflakeSql, isOk_ok, isOk_error]
    split_ifs <;> simp [isOk_ok]
  simp [generateSnowflakeSql, isOk_ok, isOk_error, h1, h2, h3, h4, h5, h6, h7, h8, h9, h10, h11]


theorem snowflake_unknown_ct (ct ot obj : String) (det : ChangeDetails)
    (h : ct ∉ snowflakeChangeTypes) :
    generateSnowflakeSql ct ot obj det = .ok ("-- Unsupported change type: " ++ ct) := by
  simp only [snowflakeChangeTypes, List.mem_cons, List.not_mem_nil, or_false] at h
  push_neg at h
  obtain ⟨h1, h2, h3, h4, h5, h6, h7, h8, h9, h10, h11⟩ := h
  simp [generateSnowflakeSql, h1, h2, h3, h4, h5, h6, h7, h8, h9, h10, h11]

theorem databricks_unknown_ct (ct ot obj : String) (det : ChangeDetails)
    (h : ct ∉ databricksChangeTypes) :
    generateDatabricksSql ct ot obj det =
      .ok ("-- Unsupported change type for Databricks: " ++ ct) := by
  simp only [databricksChangeTypes, List.mem_cons, List.not_mem_nil, or_false] at h
  push_neg at h
  obtain ⟨h1, h2, h3⟩ := h
  simp [generateDatabricksSql, h1, h2, h3]

/-- Claim C10 (amended): `generate_sql_for_change` raises exactly when the
platform is neither snowflake nor databricks, or when — on snowflake — the
change type is `grant_privilege` with `is_imported_database` truthy while
`details` lacks `on_type` (the renderer then evaluates `None.upper()` and
raises `AttributeError`); in every other case it returns a string, and a change
type outside the supported vocabulary renders as an inert
`-- Unsupported change type` comment rather than raising. -/
theorem generate_sql_error_charac (platform ct ot obj : String) (det : ChangeDetails) :
    ((generate_sql_for_change platform ct ot obj det).isOk = false ↔
      (¬platform = "snowflake" ∧ ¬platform = "databricks")
        ∨ (platform = "snowflake" ∧ ct = "grant_privilege"
            ∧ det.is_imported_database = some true ∧ det.on_type = none))
    ∧ (platform = "snowflake" → ct ∉ snowflakeChangeTypes →
        generate_sql_for_change platform ct ot obj det
          = .ok ("-- Unsupported change type: " ++ ct))
    ∧ (platform = "databricks" → ct ∉ databricksChangeTypes →
        generate_sql_for_change platform ct ot obj det
          = .ok ("-- Unsupported change type for Databricks: " ++ ct)) := by
  refine ⟨?_, ?_, ?_⟩
  · by_cases hsf : platform = "snowflake"
    · subst hsf
      simp [generate_sql_for_change, snowflake_err_charac]
    · by_cases hdb : platform = "databricks"
      · subst hdb
        simp [generate_sql_for_change, databricks_always_ok]
      · simp [generate_sql_for_change, hsf, hdb, isOk_error]
  · intro hsf hct
    subst hsf
    simp [generate_sql_for_change, snowflake_unknown_ct _ _ _ _ hct]
  · intro hdb hct
    subst hdb
    simp [generate_sql_for_change, databricks_unknown_ct _ _ _ _ hct]

/-- Witness for C10 (amended): a concrete unsupported change type on a known
platform renders as a comment, and an unknown platform raises. -/
theorem generate_sql_error_charac_witness :
    generate_sql_for_change "snowflake" "rename_role" "role" "R" ChangeDetails.empty
      = .ok "-- Unsupported change type: rename_role"
    ∧ (generate_sql_for_change "bigquery" "create_role" "role" "R"
        ChangeDetails.empty).isOk = false := by
  constructor
  · have h := (generate_sql_error_charac "snowflake" "rename_role" "role" "R"
      ChangeDetails.empty).2.1 rfl (by decide)
    simpa using h
  · exact ((generate_sql_error_charac "bigquery" "create_role" "role" "R"
      ChangeDetails.empty).1).mpr (Or.inl ⟨by decide, by decide⟩)

/-- Counterexample to Claim C10 as stated: on the known platform snowflake,
`grant_privilege` with `details = {"is_imported_database": True}` (no
`"on_type"` key) raises — the Python renderer evaluates `None.upper()` — so the
error condition is not equivalent to "platform unknown". -/
theorem generate_sql_known_platform_raises :
    (generate_sql_for_change "snowflake" "grant_privilege" "role" "R"
      importedNoTypeDetails).isOk = false := by decide

/-- Claim C1 (exhibit of the code's actual behavior): on the scenario
`{DATA_VIEWER→ANALYST (ROLE), ANALYST→alice (USER)}` with the single grant
`{SELECT, TABLE, DB.SCHEMA.T, grantee DATA_VIEWER}`, `get_user_access` returns
only the role ANALYST (path "ANALYST") and an empty databases structure with
all-zero summary: the traversal follows `role_children[role] = assignees`, the
grantee-direction of the edges, so the inherited role DATA_VIEWER is never
reached and its grant is filtered out — not the two roles and one table entry
the claim (and the endpoint docstring) describe. -/
theorem user_access_scenario_eval :
    get_user_access "alice" scenarioAssignments scenarioRoles scenarioGrants =
      some { user := "alice",
             roles := [{ name := "ANALYST", granted_via := "ANALYST",
                         is_inherited := false, is_system := false }],
             role_count := 1,
             databases := [],
             summary := ⟨0, 0, 0, 0⟩ } := by decide

/-- Claim C2 (exhibit of the crash): a grant with an account-level object type
(WAREHOUSE) and a non-null `object_database` makes the aggregation loop index
`db_data["ACCOUNT"]` before any grant has created that bucket — line 813 only
initializes `db_data[db_name] = db_data["DB1"]` — so the loop raises `KeyError`
instead of completing: both the loop itself and the full endpoint abort. -/
theorem aggregation_stale_grant_keyerror :
    aggregateGrants [("R", "R")] [staleWarehouseGrant] [] = none
    ∧ get_user_access "bob" [⟨"R", "USER", "bob", none, none⟩] []
        [staleWarehouseGrant] = none := by
  exact ⟨by decide, by decide⟩

theorem convertSchemaLoop_spec (schemas : List (String × SchemaEntry)) :
    ∀ (ks : List String) (acc : List (String × SchemaAccess)) (tt tv : Nat),
      convertSchemaLoop schemas ks acc tt tv =
        (acc ++ builtSchemas schemas ks,
         tt + ((builtSchemas schemas ks).map (fun kv => kv.2.tables.length)).sum,
         tv + ((builtSchemas schemas ks).map (fun kv => kv.2.views.length)).sum) := by
  intro ks
  induction ks with
  | nil => intro acc tt tv; simp [convertSchemaLoop, builtSchemas]
  | cons k ks ih =>
    intro acc tt tv
    rw [convertSchemaLoop, ih]
    simp [builtSchemas, Nat.add_assoc]

theorem convertDbLoop_spec (dbData : DbData) :
    ∀ (ks : List String) (acc : List DatabaseAccess) (ts tt tv : Nat),
      convertDbLoop dbData ks acc ts tt tv =
        (acc ++ builtDbs dbData ks,
         ts + schemasTotal (builtDbs dbData ks),
         tt + tablesTotal (builtDbs dbData ks),
         tv + viewsTotal (builtDbs dbData ks)) := by
  intro ks
  induction ks with
  | nil =>
    intro acc ts tt tv
    simp [convertDbLoop, builtDbs, schemasTotal, tablesTotal, viewsTotal]
  | cons k ks ih =>
    intro acc ts tt tv
    rw [convertDbLoop, convertSchemaLoop_spec, ih]
    simp [builtDbs, builtSchemas, schemasTotal, tablesTotal, viewsTotal, Nat.add_assoc]

/-- Claim C8: whenever `get_user_access` returns a response, the four summary
counts equal, respectively, the number of database entries, the total number of
schema entries, table entries and view entries actually present in the nested
`databases` structure of the same response — they are derived from the
structure, not independently tracked. -/
theorem summary_counts_consistent (user : String)
    (assignments : List RoleAssignment) (roles : List PlatformRole)
    (grants : List PlatformGrant) (resp : UserAccessResponse)
    (h : get_user_access user assignments roles grants = some resp) :
    resp.summary.total_databases = resp.databases.length
    ∧ resp.summary.total_schemas = schemasTotal resp.databases
    ∧ resp.summary.total_tables = tablesTotal resp.databases
    ∧ resp.summary.total_views = viewsTotal resp.databases := by
  simp only [get_user_access] at h
  split at h
  · exact absurd h (by simp)
  · split at h
    · exact absurd h (by simp)
    · rw [Option.some_inj] at h
      subst h
      rw [convertDbLoop_spec]
      simp

/-- Witness for C8: the counts of a concrete three-grant response agree with
its structure. -/
theorem summary_counts_consistent_witness :
    countsWitnessResponse.summary.total_databases = countsWitnessResponse.databases.length
    ∧ countsWitnessResponse.summary.total_schemas = schemasTotal countsWitnessResponse.databases
    ∧ countsWitnessResponse.summary.total_tables = tablesTotal countsWitnessResponse.databases
    ∧ countsWitnessResponse.summary.total_views = viewsTotal countsWitnessResponse.databases :=
  summary_counts_consistent "u" [⟨"R", "USER", "u", none, none⟩] [⟨"R", false⟩]
    countsWitnessGrants countsWitnessResponse (by decide)

theorem travExt_refl (st : TravState) : TravExt st st :=
  ⟨List.prefix_refl _, List.prefix_refl _, List.prefix_refl _⟩

theorem travExt_trans {a b c : TravState} (h1 : TravExt a b) (h2 : TravExt b c) :
    TravExt a c :=
  ⟨h1.1.trans h2.1, h1.2.1.trans h2.2.1, h1.2.2.trans h2.2.2⟩

theorem travFold_none (ch : String → List String) (sys : String → Bool) (fuel : Nat)
    (curPath : List String) (l : List String) :
    l.foldl (fun acc c => acc.bind (fun s => traverseRoles ch sys fuel c curPath s))
      none = none := by
  induction l with
  | nil => rfl
  | cons c cs ih => simpa using ih

theorem trav_extends (ch : String → List String) (sys : String → Bool) :
    ∀ (fuel : Nat) (role : String) (path : List String) (st st2 : TravState),
      traverseRoles ch sys fuel role path st = some st2 → TravExt st st2 := by
  intro fuel
  induction fuel with
  | zero =>
    intro role path st st2 h
    simp [traverseRoles] at h
  | succ n ih =>
    have hfold : ∀ (l : List String) (curPath : List String) (st st2 : TravState),
        l.foldl (fun acc c => acc.bind (fun s => traverseRoles ch sys n c curPath s))
          (some st) = some st2 → TravExt st st2 := by
      intro l
      induction l with
      | nil =>
        intro curPath st st2 h
        simp at h
        subst h
        exact travExt_refl st
      | cons c cs ihl =>
        intro curPath st st2 h
        rw [List.foldl_cons, Option.some_bind] at h
        rcases hc : traverseRoles ch sys n c curPath st with _ | stm
        · rw [hc, travFold_none] at h
          exact absurd h (by simp)
        · rw [hc] at h
          exact travExt_trans (ih c curPath st stm hc) (ihl curPath stm st2 h)
    intro role path st st2 h
    by_cases hv : st.visited.contains role = true
    · simp only [traverseRoles, if_pos hv, Option.some_inj] at h
      subst h
      exact travExt_refl st
    · simp only [traverseRoles, if_neg hv] at h
      refine travExt_trans ?_ (hfold _ _ _ _ h)
      exact ⟨List.prefix_append _ _, List.prefix_append _ _, List.prefix_append _ _⟩

theorem lookupKey_of_prefix {α : Type} {l1 l2 : List (String × α)} (h : l1 <+: l2)
    {k : String} {v : α} (hl : lookupKey l1 k = some v) : lookupKey l2 k = some v := by
  obtain ⟨t, rfl⟩ := h
  induction l1 with
  | nil => simp [lookupKey] at hl
  | cons kv rest ih =>
    rcases kv with ⟨k0, v0⟩
    simp only [List.cons_append, lookupKey] at hl ⊢
    by_cases h0 : (k0 == k) = true
    · rw [if_pos h0] at hl ⊢
      exact hl
    · rw [if_neg h0] at hl ⊢
      exact ih hl

theorem trav_inv (ch : String → List String) (sys : String → Bool) :
    ∀ (fuel : Nat) (role : String) (path : List String) (st st2 : TravState),
      traverseRoles ch sys fuel role path st = some st2 → StInv st → StInv st2 := by
  intro fuel
  induction fuel with
  | zero =>
    intro role path st st2 h
    simp [traverseRoles] at h
  | succ n ih =>
    have hfold : ∀ (l : List String) (curPath : List String) (st st2 : TravState),
        l.foldl (fun acc c => acc.bind (fun s => traverseRoles ch sys n c curPath s))
          (some st) = some st2 → StInv st → StInv st2 := by
      intro l
      induction l with
      | nil =>
        intro curPath st st2 h hinv
        simp at h
        subst h
        exact hinv
      | cons c cs ihl =>
        intro curPath st st2 h hinv
        rw [List.foldl_cons, Option.some_bind] at h
        rcases hc : traverseRoles ch sys n c curPath st with _ | stm
        · rw [hc, travFold_none] at h
          exact absurd h (by simp)
        · rw [hc] at h
          exact ihl curPath stm st2 h (ih c curPath st stm hc hinv)
    intro role path st st2 h hinv
    by_cases hv : st.visited.contains role = true
    · simp only [traverseRoles, if_pos hv, Option.some_inj] at h
      subst h
      exact hinv
    · simp only [traverseRoles, if_neg hv] at h
      refine hfold _ _ _ _ h ?_
      have hmem : role ∉ st.visited := by
        intro hm
        exact hv (by simpa using hm)
      refine ⟨?_, ?_, ?_⟩
      · simp [List.nodup_append, hinv.1, hmem]
      · simp [List.map_append, hinv.2.1]
      · simp [List.map_append, hinv.2.2]

theorem filter_length_mono {α : Type} (l : List α) (p q : α → Bool)
    (h : ∀ a, p a = true → q a = true) :
    (l.filter p).length ≤ (l.filter q).length := by
  induction l with
  | nil => simp
  | cons a as ih =>
    by_cases hp : p a = true
    · rw [List.filter_cons_of_pos hp, List.filter_cons_of_pos (h a hp)]
      simpa using ih
    · rw [List.filter_cons_of_neg (by simpa using hp)]
      by_cases hq : q a = true
      · rw [List.filter_cons_of_pos hq]
        exact Nat.le_succ_of_le ih
      · rw [List.filter_cons_of_neg (by simpa using hq)]
        exact ih

theorem filter_length_lt {α : Type} (l : List α) (p q : α → Bool)
    (h : ∀ a, p a = true → q a = true) (a0 : α) (h0 : a0 ∈ l)
    (hq : q a0 = true) (hp : p a0 = false) :
    (l.filter p).length < (l.filter q).length := by
  induction l with
  | nil => simp at h0
  | cons b bs ih =>
    rcases List.mem_cons.mp h0 with rfl | hbs
    · rw [List.filter_cons_of_neg (by simp [hp]), List.filter_cons_of_pos hq]
      exact Nat.lt_succ_of_le (filter_length_mono bs p q h)
    · by_cases hpb : p b = true
      · rw [List.filter_cons_of_pos hpb, List.filter_cons_of_pos (h b hpb)]
        simpa using ih hbs
      · rw [List.filter_cons_of_neg (by simpa using hpb)]
        by_cases hqb : q b = true
        · rw [List.filter_cons_of_pos hqb]
          exact Nat.lt_succ_of_lt (ih hbs)
        · rw [List.filter_cons_of_neg (by simpa using hqb)]
          exact ih hbs

theorem unvisited_mono (carrier : List String) (st st2 : TravState)
    (h : st.visited <+: st2.visited) :
    unvisitedCount carrier st2 ≤ unvisitedCount carrier st := by
  refine filter_length_mono carrier _ _ ?_
  intro a ha
  simp only [Bool.not_eq_true'] at ha ⊢
  rcases hc : st.visited.contains a
  · rfl
  · have : a ∈ st.visited := by simpa using hc
    have : a ∈ st2.visited := h.subset this
    simp [this] at ha

theorem unvisited_insert_lt (carrier : List String) (st st1 : TravState) (role : String)
    (h1 : st1.visited = st.visited ++ [role])
    (hrole : role ∈ carrier) (hv : ¬st.visited.contains role = true) :
    unvisitedCount carrier st1 < unvisitedCount carrier st := by
  unfold unvisitedCount
  rw [h1]
  refine filter_length_lt carrier _ _ ?_ role hrole ?_ ?_
  · intro a ha
    simp only [Bool.not_eq_true'] at ha ⊢
    rcases hc : st.visited.contains a
    · rfl
    · have : a ∈ st.visited := by simpa using hc
      have : a ∈ st.visited ++ [role] := by simp [this]
      simp [this] at ha
  · simp only [Bool.not_eq_true']
    simpa using hv
  · simp

theorem trav_success (ch : String → List String) (sys : String → Bool)
    (carrier : List String) (hch : ∀ name c, c ∈ ch name → c ∈ carrier) :
    ∀ (fuel : Nat) (role : String) (path : List String) (st : TravState),
      role ∈ carrier → unvisitedCount carrier st < fuel →
      ∃ st2, traverseRoles ch sys fuel role path st = some st2 := by
  intro fuel
  induction fuel with
  | zero =>
    intro role path st _ hcnt
    exact absurd hcnt (Nat.not_lt_zero _)
  | succ n ih =>
    intro role path st hrole hcnt
    by_cases hv : st.visited.contains role = true
    · exact ⟨st, by simp only [traverseRoles, if_pos hv]⟩
    · have hfold : ∀ (l : List String), (∀ c ∈ l, c ∈ carrier) →
          ∀ (curPath : List String) (stx : TravState), unvisitedCount carrier stx < n →
          ∃ st2, l.foldl (fun acc c => acc.bind (fun s => traverseRoles ch sys n c curPath s))
            (some stx) = some st2 := by
        intro l
        induction l with
        | nil =>
          intro _ curPath stx _
          exact ⟨stx, rfl⟩
        | cons c cs ihl =>
          intro hl curPath stx hcx
          obtain ⟨stc, hstc⟩ := ih c curPath stx (hl c (by simp)) hcx
          have hm : unvisitedCount carrier stc ≤ unvisitedCount carrier stx :=
            unvisited_mono carrier stx stc (trav_extends ch sys n c curPath stx stc hstc).1
          obtain ⟨st2, hst2⟩ :=
            ihl (fun c2 hc2 => hl c2 (by simp [hc2])) curPath stc (lt_of_le_of_lt hm hcx)
          exact ⟨st2, by rw [List.foldl_cons, Option.some_bind, hstc]; exact hst2⟩
      have hdec : unvisitedCount carrier
          ⟨st.rolesWithPaths
              ++ [{ name := role,
                    granted_via := String.intercalate " → " (path ++ [role]),
                    is_inherited := decide (path.length > 0), is_system := sys role }],
            st.roleToPath ++ [(role, String.intercalate " → " (path ++ [role]))],
            st.visited ++ [role]⟩ < n := by
        have := unvisited_insert_lt carrier st
          ⟨st.rolesWithPaths
              ++ [{ name := role,
                    granted_via := String.intercalate " → " (path ++ [role]),
                    is_inherited := decide (path.length > 0), is_system := sys role }],
            st.roleToPath ++ [(role, String.intercalate " → " (path ++ [role]))],
            st.visited ++ [role]⟩ role rfl hrole hv
        omega
      obtain ⟨st2, h2⟩ := hfold (ch role) (fun c hc => hch role c hc) (path ++ [role]) _ hdec
      exact ⟨st2, by simp only [traverseRoles, if_neg hv]; exact h2⟩

theorem roots_fold_success (ch : String → List String) (sys : String → Bool)
    (carrier : List String) (hch : ∀ name c, c ∈ ch name → c ∈ carrier) :
    ∀ (rs : List String), (∀ r ∈ rs, r ∈ carrier) →
      ∀ (fuel : Nat) (st : TravState), StInv st → unvisitedCount carrier st < fuel →
      ∃ st2, rs.foldl (fun acc r => acc.bind (fun s => traverseRoles ch sys fuel r [] s))
          (some st) = some st2 ∧ StInv st2 := by
  intro rs
  induction rs with
  | nil =>
    intro _ fuel st hinv _
    exact ⟨st, rfl, hinv⟩
  | cons r rs ihl =>
    intro hmem fuel st hinv hcnt
    obtain ⟨st1, hst1⟩ := trav_success ch sys carrier hch fuel r [] st (hmem r (by simp)) hcnt
    have hinv1 := trav_inv ch sys fuel r [] st st1 hst1 hinv
    have hm := unvisited_mono carrier st st1 (trav_extends ch sys fuel r [] st st1 hst1).1
    obtain ⟨st2, h2, hinv2⟩ :=
      ihl (fun x hx => hmem x (by simp [hx])) fuel st1 hinv1 (lt_of_le_of_lt hm hcnt)
    exact ⟨st2, by rw [List.foldl_cons, Option.some_bind, hst1]; exact h2, hinv2⟩

theorem lookup_roleToPath (l : List RoleWithPath)
    (hnd : (l.map RoleWithPath.name).Nodup) :
    ∀ e ∈ l, lookupKey (l.map (fun x => (x.name, x.granted_via))) e.name
      = some e.granted_via := by
  induction l with
  | nil =>
    intro e he
    simp at he
  | cons a as ih =>
    intro e he
    rcases List.mem_cons.mp he with rfl | has
    · simp [lookupKey]
    · have hne : ¬(a.name == e.name) = true := by
        simp only [beq_iff_eq]
        intro hEq
        have hmem : e.name ∈ as.map RoleWithPath.name := List.mem_map_of_mem _ has
        rw [← hEq] at hmem
        exact (List.nodup_cons.mp (by simpa using hnd)).1 hmem
      simp only [List.map_cons, lookupKey]
      rw [if_neg hne]
      exact ih (List.nodup_cons.mp (by simpa using hnd)).2 e has

/-- Claim C3: for every assignment edge set and every root list — cycles and
self-loops included — the traversal completes within the fuel bound
`assignments.length + roots.length + 1` (it terminates, the fuel is never
exhausted), emits each role name at most once across all roots and branches
(the emitted name list is duplicate-free), records in `role_to_path` exactly
the emitted provenance of each emitted role, and — started from any state —
never overwrites a provenance already recorded, so only the first discovered
path to a role survives. -/
theorem traversal_cycle_safe (assignments : List RoleAssignment)
    (roles : List PlatformRole) (roots : List String) :
    (∃ st, runTraversal (roleChildren assignments) (roleIsSystem roles)
        (assignments.length + roots.length + 1) roots = some st
      ∧ (st.rolesWithPaths.map RoleWithPath.name).Nodup
      ∧ ∀ e ∈ st.rolesWithPaths, lookupKey st.roleToPath e.name = some e.granted_via)
    ∧ (∀ (fuel : Nat) (role : String) (path : List String) (st st2 : TravState),
        traverseRoles (roleChildren assignments) (roleIsSystem roles) fuel role path st
          = some st2 →
        ∀ r pth, lookupKey st.roleToPath r = some pth →
          lookupKey st2.roleToPath r = some pth) := by
  constructor
  · have hch : ∀ name c, c ∈ roleChildren assignments name →
        c ∈ travCarrier assignments roots := by
      intro name c hc
      simp only [roleChildren, List.mem_map, List.mem_filter] at hc
      obtain ⟨a, ⟨ha, _⟩, rfl⟩ := hc
      simp only [travCarrier, List.mem_append, List.mem_map]
      exact Or.inr ⟨a, ha, rfl⟩
    have hroots : ∀ r ∈ roots, r ∈ travCarrier assignments roots := by
      intro r hr
      simp [travCarrier, hr]
    have hinit : unvisitedCount (travCarrier assignments roots) TravState.init
        < assignments.length + roots.length + 1 := by
      unfold unvisitedCount TravState.init
      have hfilter : (travCarrier assignments roots).filter
          (fun r => !(([] : List String).contains r)) = travCarrier assignments roots := by
        simp
      rw [hfilter]
      simp only [travCarrier, List.length_append, List.length_map]
      omega
    obtain ⟨st, hrun, hinv⟩ := roots_fold_success (roleChildren assignments)
      (roleIsSystem roles) (travCarrier assignments roots) hch roots hroots
      (assignments.length + roots.length + 1) TravState.init
      ⟨List.nodup_nil, rfl, rfl⟩ hinit
    refine ⟨st, hrun, ?_, ?_⟩
    · have := hinv.1
      rw [hinv.2.1] at this
      exact this
    · intro e he
      rw [hinv.2.2]
      exact lookup_roleToPath st.rolesWithPaths
        (by rw [← hinv.2.1]; exact hinv.1) e he
  · intro fuel role path st st2 h r pth hl
    exact lookupKey_of_prefix
      (trav_extends (roleChildren assignments) (roleIsSystem roles)
        fuel role path st st2 h).2.1 hl

/-- Witness for C3: on the cyclic assignment set, the traversal from A
completes, and a provenance recorded before it started (role X) is preserved
unchanged in the resulting state. -/
theorem traversal_cycle_safe_witness :
    lookupKey cyclicResultState.roleToPath "X" = some "X" :=
  (traversal_cycle_safe cyclicAssignments [] ["A"]).2 5 "A" [] seededState
    cyclicResultState (by decide) "X" "X" rfl

end Grantd
